import Mathlib

/-!
Shallow embedding of the NBA data scraper's rate-governed fetch-and-normalize
core (source file claude_scraper_nbaapi_ver00.py): the rate limiter
(_rate_limit_request), name resolution (get_player_id_by_name), player and
team game-log fetch and normalization (get_player_game_log,
get_team_game_log, derived DOUBLE_DOUBLE / TRIPLE_DOUBLE flags and shooting
percentages), box-score fetch (get_box_score), and the box-score spot check
(spot_check_game).

Tabular pandas data is modelled as association lists from column names to
cell values.  Cell values follow IEEE-754-style semantics (PVal) with
rationals in place of finite floats, so that pandas behaviour on division by
zero (signed infinity / NaN, no exception) and NaN-skipping sums is
represented.  External collaborators (the nba_api endpoints) are passed in
as explicit arguments: an Except.error models an exception raised by the
collaborator, an Except.ok its tabular response.  Exceptions raised inside
a fetch body (KeyError on a missing column, IndexError on an out-of-range
lookup) are modelled with Except and are absorbed exactly where the source's
try/except blocks absorb them.
-/

/-- A pandas cell value: a finite number (rational in place of float),
NaN, or a signed infinity. -/
inductive PVal where
  | num : ℚ → PVal
  | nan : PVal
  | inf : PVal
  | ninf : PVal
  deriving DecidableEq

/-- IEEE-style addition on cell values (signed zeros ignored, which is
irrelevant over rationals). -/
def pvAdd : PVal → PVal → PVal
  | PVal.num a, PVal.num b => PVal.num (a + b)
  | PVal.nan, _ => PVal.nan
  | _, PVal.nan => PVal.nan
  | PVal.inf, PVal.ninf => PVal.nan
  | PVal.ninf, PVal.inf => PVal.nan
  | PVal.inf, _ => PVal.inf
  | _, PVal.inf => PVal.inf
  | PVal.ninf, _ => PVal.ninf
  | _, PVal.ninf => PVal.ninf

/-- IEEE-style subtraction on cell values. -/
def pvSub : PVal → PVal → PVal
  | PVal.num a, PVal.num b => PVal.num (a - b)
  | PVal.nan, _ => PVal.nan
  | _, PVal.nan => PVal.nan
  | PVal.inf, PVal.inf => PVal.nan
  | PVal.ninf, PVal.ninf => PVal.nan
  | PVal.inf, _ => PVal.inf
  | PVal.ninf, _ => PVal.ninf
  | _, PVal.inf => PVal.ninf
  | _, PVal.ninf => PVal.inf

/-- IEEE-style absolute value on cell values. -/
def pvAbs : PVal → PVal
  | PVal.num a => PVal.num (abs a)
  | PVal.nan => PVal.nan
  | _ => PVal.inf

/-- IEEE-style strict comparison on cell values: any comparison against
NaN is false. -/
def pvLt : PVal → PVal → Bool
  | PVal.nan, _ => false
  | _, PVal.nan => false
  | PVal.ninf, PVal.ninf => false
  | PVal.ninf, _ => true
  | _, PVal.ninf => false
  | PVal.inf, _ => false
  | PVal.num _, PVal.inf => true
  | PVal.num a, PVal.num b => decide (a < b)

/-- Elementwise pandas division, as performed by df[c1] / df[c2]: division
by zero silently yields a signed infinity (nonzero numerator) or NaN
(zero numerator) instead of raising. -/
def pandasDiv : PVal → PVal → PVal
  | PVal.nan, _ => PVal.nan
  | _, PVal.nan => PVal.nan
  | PVal.inf, PVal.inf => PVal.nan
  | PVal.inf, PVal.ninf => PVal.nan
  | PVal.ninf, PVal.inf => PVal.nan
  | PVal.ninf, PVal.ninf => PVal.nan
  | PVal.inf, PVal.num b => if 0 ≤ b then PVal.inf else PVal.ninf
  | PVal.ninf, PVal.num b => if 0 ≤ b then PVal.ninf else PVal.inf
  | PVal.num _, PVal.inf => PVal.num 0
  | PVal.num _, PVal.ninf => PVal.num 0
  | PVal.num a, PVal.num b =>
    if b = 0 then
      if 0 < a then PVal.inf else if a < 0 then PVal.ninf else PVal.nan
    else PVal.num (a / b)

/-- pandas Series.sum with the default skipna=True: NaN entries are
skipped, and the empty sum is 0. -/
def sumStep (acc : PVal) (v : PVal) : PVal :=
  match v with
  | PVal.nan => acc
  | _ => pvAdd acc v

/-- Sum of a pandas column selection (see sumStep). -/
def pandasSum (l : List PVal) : PVal := l.foldl sumStep (PVal.num 0)

/-- One tabular row: an association list from column names to cell
values, in column order. -/
abbrev Row := List (String × PVal)

/-- Column lookup in a row (first binding wins, mirroring the unique
column names of a DataFrame). -/
def rget : Row → String → Option PVal
  | [], _ => none
  | (k, v) :: rest, c => if k = c then some v else rget rest c

/-- Column assignment df[c] = v on one row: overwrite in place when the
column exists, else append the new column at the end (pandas column-add
order). -/
def rset : Row → String → PVal → Row
  | [], c, v => [(c, v)]
  | (k, w) :: rest, c, v =>
    if k = c then (c, v) :: rest else (k, w) :: rset rest c v

/-- Column names of a row, in order. -/
def rkeys (r : Row) : List String := r.map Prod.fst

/-- Column access df[c] that raises KeyError (modelled as Except.error)
when the column is missing. -/
def getE (r : Row) (c : String) : Except String PVal :=
  match rget r c with
  | some v => Except.ok v
  | none => Except.error c

/-- One vectorized comparison df[c] >= 10 on a single cell, with IEEE
semantics (NaN >= 10 is false, inf >= 10 is true). -/
def pvGe10 : PVal → Bool
  | PVal.num q => decide (10 ≤ q)
  | PVal.inf => true
  | PVal.nan => false
  | PVal.ninf => false

/-- Count of the five stat categories that are >= 10, i.e. the sum
(df[PTS] >= 10).astype(int) + ... + (df[BLK] >= 10).astype(int) on one
row (source lines 186-196). -/
def dd_count (pts reb ast stl blk : PVal) : Nat :=
  (pvGe10 pts).toNat + (pvGe10 reb).toNat + (pvGe10 ast).toNat +
    (pvGe10 stl).toNat + (pvGe10 blk).toNat

/-- DOUBLE_DOUBLE derived flag of one row (source lines 186-190). -/
def double_double (pts reb ast stl blk : PVal) : Nat :=
  if 2 ≤ dd_count pts reb ast stl blk then 1 else 0

/-- TRIPLE_DOUBLE derived flag of one row (source lines 192-196). -/
def triple_double (pts reb ast stl blk : PVal) : Nat :=
  if 3 ≤ dd_count pts reb ast stl blk then 1 else 0

/-- C1: the DOUBLE_DOUBLE flag is 1 exactly when at least two of the five
categories {points, rebounds, assists, steals, blocks} are individually
at least 10 (else 0), and the TRIPLE_DOUBLE flag is 1 exactly when at
least three of those categories are at least 10 (else 0); in particular
points=10, rebounds=10, assists=3, steals=0, blocks=0 gives
DOUBLE_DOUBLE=1 and TRIPLE_DOUBLE=0, and points=10, rebounds=10,
assists=10, steals=0, blocks=0 gives DOUBLE_DOUBLE=1 and TRIPLE_DOUBLE=1. -/
theorem double_double_triple_double_flags :
    (∀ pts reb ast stl blk : ℚ,
      (double_double (PVal.num pts) (PVal.num reb) (PVal.num ast)
          (PVal.num stl) (PVal.num blk) = 1 ↔
        2 ≤ (List.filter (fun q => decide ((10:ℚ) ≤ q))
              [pts, reb, ast, stl, blk]).length) ∧
      (double_double (PVal.num pts) (PVal.num reb) (PVal.num ast)
          (PVal.num stl) (PVal.num blk) = 0 ↔
        (List.filter (fun q => decide ((10:ℚ) ≤ q))
          [pts, reb, ast, stl, blk]).length < 2) ∧
      (triple_double (PVal.num pts) (PVal.num reb) (PVal.num ast)
          (PVal.num stl) (PVal.num blk) = 1 ↔
        3 ≤ (List.filter (fun q => decide ((10:ℚ) ≤ q))
              [pts, reb, ast, stl, blk]).length) ∧
      (triple_double (PVal.num pts) (PVal.num reb) (PVal.num ast)
          (PVal.num stl) (PVal.num blk) = 0 ↔
        (List.filter (fun q => decide ((10:ℚ) ≤ q))
          [pts, reb, ast, stl, blk]).length < 3)) ∧
    (double_double (PVal.num 10) (PVal.num 10) (PVal.num 3) (PVal.num 0)
        (PVal.num 0) = 1 ∧
      triple_double (PVal.num 10) (PVal.num 10) (PVal.num 3) (PVal.num 0)
        (PVal.num 0) = 0) ∧
    (double_double (PVal.num 10) (PVal.num 10) (PVal.num 10) (PVal.num 0)
        (PVal.num 0) = 1 ∧
      triple_double (PVal.num 10) (PVal.num 10) (PVal.num 10) (PVal.num 0)
        (PVal.num 0) = 1) := by
  refine ⟨?_, by decide, by decide⟩
  intro pts reb ast stl blk
  by_cases h1 : (10:ℚ) ≤ pts <;>
  by_cases h2 : (10:ℚ) ≤ reb <;>
  by_cases h3 : (10:ℚ) ≤ ast <;>
  by_cases h4 : (10:ℚ) ≤ stl <;>
  by_cases h5 : (10:ℚ) ≤ blk <;>
  simp [double_double, triple_double, dd_count, pvGe10, List.filter,
    h1, h2, h3, h4, h5]

/-- C9: for all values of the five underlying stat fields, a row flagged
TRIPLE_DOUBLE = 1 is also flagged DOUBLE_DOUBLE = 1. -/
theorem triple_double_implies_double_double
    (pts reb ast stl blk : PVal)
    (h : triple_double pts reb ast stl blk = 1) :
    double_double pts reb ast stl blk = 1 := by
  unfold double_double
  unfold triple_double at h
  split_ifs at h ⊢ <;> omega

/-- Witness for C9 at a concrete row. -/
theorem triple_double_implies_double_double_witness :
    double_double (PVal.num 10) (PVal.num 11) (PVal.num 12) (PVal.num 0)
      (PVal.num 0) = 1 :=
  triple_double_implies_double_double _ _ _ _ _ (by decide)

/-- Whether the DataFrame has a column, i.e. c in df.columns; the rows of
a DataFrame share one column set, read here from the first row (the
fetches only reach this check on a non-empty DataFrame). -/
def dfHasCol (df : List Row) (c : String) : Bool :=
  match df with
  | [] => false
  | r :: _ => (rget r c).isSome

/-- Per-row part of the DOUBLE_DOUBLE / TRIPLE_DOUBLE derivation of
get_player_game_log (source lines 186-196): reads the five stat columns
(KeyError when one is missing) and appends both derived flag columns. -/
def addDerived (r : Row) : Except String Row := do
  let pts ← getE r "PTS"
  let reb ← getE r "REB"
  let ast ← getE r "AST"
  let stl ← getE r "STL"
  let blk ← getE r "BLK"
  pure (rset
    (rset r "DOUBLE_DOUBLE" (PVal.num (double_double pts reb ast stl blk)))
    "TRIPLE_DOUBLE" (PVal.num (triple_double pts reb ast stl blk)))

/-- Shooting-percentage derivation of get_player_game_log (source lines
198-203): when FG_PCT is absent and FGM, FGA are present, assign
df[FG_PCT] = df[FGM] / df[FGA] elementwise (pandas division, see
pandasDiv); then the same for FG3_PCT from FG3M / FG3A. -/
def addPcts (df : List Row) : Except String (List Row) := do
  let df1 ←
    if !dfHasCol df "FG_PCT" && dfHasCol df "FGM" && dfHasCol df "FGA" then
      df.mapM (fun r => do
        let m ← getE r "FGM"
        let a ← getE r "FGA"
        pure (rset r "FG_PCT" (pandasDiv m a)))
    else pure df
  if !dfHasCol df1 "FG3_PCT" && dfHasCol df1 "FG3M" && dfHasCol df1 "FG3A" then
    df1.mapM (fun r => do
      let m ← getE r "FG3M"
      let a ← getE r "FG3A"
      pure (rset r "FG3_PCT" (pandasDiv m a)))
  else pure df1

/-- Normalization body of get_player_game_log on a non-empty DataFrame
(source lines 176, 186-203): add the PLAYER_ID column, derive the
double-double / triple-double flags, then the shooting percentages. -/
def normalize_player_df (player_id : ℚ) (df : List Row) :
    Except String (List Row) := do
  let df := df.map (fun r => rset r "PLAYER_ID" (PVal.num player_id))
  let df ← df.mapM addDerived
  addPcts df

/-- get_player_game_log (source lines 146-216).  The external collaborator
(playergamelog endpoint plus DataFrame conversion) is an explicit argument:
Except.error is an exception it raised.  The returned Bool reports whether
the surrounding try/except caught a failure and logged an error diagnostic
before returning the empty DataFrame. -/
def get_player_game_log (player_id : ℚ) (ext : Except String (List Row)) :
    List Row × Bool :=
  match ext with
  | Except.error _ => ([], true)
  | Except.ok df =>
    if df.isEmpty then ([], false)
    else
      match normalize_player_df player_id df with
      | Except.error _ => ([], true)
      | Except.ok out => (out, false)

/-- get_team_game_log (source lines 218-264): on a non-empty response only
the TEAM_ID column is assigned; no derived columns are computed. -/
def get_team_game_log (team_id : ℚ) (ext : Except String (List Row)) :
    List Row × Bool :=
  match ext with
  | Except.error _ => ([], true)
  | Except.ok df =>
    if df.isEmpty then ([], false)
    else (df.map (fun r => rset r "TEAM_ID" (PVal.num team_id)), false)

/-- get_box_score (source lines 266-308): the collaborator returns the
player-stats and team-stats tables; when either is empty both are replaced
by empty tables, and a collaborator exception yields both tables empty
plus a logged error (the reported Bool). -/
def get_box_score (ext : Except String (List Row × List Row)) :
    (List Row × List Row) × Bool :=
  match ext with
  | Except.error _ => (([], []), true)
  | Except.ok pt =>
    if pt.1.isEmpty || pt.2.isEmpty then (([], []), false)
    else ((pt.1, pt.2), false)

/-- C2 evidence: on a raw row with FGM=5, FGA=0 (and FG3M=0, FG3A=0) and no
pre-existing percentage columns, the normalization of get_player_game_log
does not leave FG_PCT as a null-like sentinel: pandas division assigns
FG_PCT = +infinity and FG3_PCT = NaN, though no exception is raised. -/
theorem fg_pct_zero_attempts_divides_anyway :
    (((get_player_game_log 7
        (Except.ok [[("PTS", PVal.num 20), ("REB", PVal.num 5),
          ("AST", PVal.num 4), ("STL", PVal.num 1), ("BLK", PVal.num 0),
          ("FGM", PVal.num 5), ("FGA", PVal.num 0),
          ("FG3M", PVal.num 0), ("FG3A", PVal.num 0)]])).1.head?.bind
      (fun r => rget r "FG_PCT")) = some PVal.inf) ∧
    (((get_player_game_log 7
        (Except.ok [[("PTS", PVal.num 20), ("REB", PVal.num 5),
          ("AST", PVal.num 4), ("STL", PVal.num 1), ("BLK", PVal.num 0),
          ("FGM", PVal.num 5), ("FGA", PVal.num 0),
          ("FG3M", PVal.num 0), ("FG3A", PVal.num 0)]])).1.head?.bind
      (fun r => rget r "FG3_PCT")) = some PVal.nan) ∧
    PVal.inf ≠ PVal.num 0 ∧ PVal.nan ≠ PVal.num 0 := by
  refine ⟨by decide, by decide, by decide, by decide⟩

/-- C3: every collaborator failure at any of the three fetch boundaries is
caught and converted to an empty result plus a reported failure signal,
and a failure inside player-log normalization (e.g. a missing expected
column) is absorbed by the same handler; no failure propagates. -/
theorem fetch_failures_return_empty :
    (∀ (e : String) (pid : ℚ),
      get_player_game_log pid (Except.error e) = ([], true)) ∧
    (∀ (e : String) (tid : ℚ),
      get_team_game_log tid (Except.error e) = ([], true)) ∧
    (∀ e : String, get_box_score (Except.error e) = (([], []), true)) ∧
    (∀ (pid : ℚ) (df : List Row) (m : String),
      normalize_player_df pid df = Except.error m →
      get_player_game_log pid (Except.ok df) = ([], true)) := by
  refine ⟨fun e pid => rfl, fun e tid => rfl, fun e => rfl, ?_⟩
  intro pid df m h
  match df with
  | [] =>
    rw [show normalize_player_df pid ([] : List Row) = Except.ok [] from rfl]
      at h
    exact Except.noConfusion h
  | r :: rest =>
    show (match normalize_player_df pid (r :: rest) with
      | Except.error _ => (([] : List Row), true)
      | Except.ok out => (out, false)) = ([], true)
    rw [h]

/-- Witness for C3 at a concrete input: a response row missing the PTS
column makes normalization fail, and the fetch returns empty plus the
failure signal. -/
theorem fetch_failures_return_empty_witness :
    get_player_game_log 7 (Except.ok [[("GAME_ID", PVal.num 3)]]) =
      ([], true) :=
  fetch_failures_return_empty.2.2.2 7 [[("GAME_ID", PVal.num 3)]] "PTS" rfl

/-- C6: every BoxScore returned by get_box_score has either both the
player table and team table non-empty, or both empty; a partially
populated BoxScore is never returned. -/
theorem box_score_atomic (ext : Except String (List Row × List Row)) :
    ((get_box_score ext).1.1 = [] ∧ (get_box_score ext).1.2 = []) ∨
    ((get_box_score ext).1.1 ≠ [] ∧ (get_box_score ext).1.2 ≠ []) := by
  match ext with
  | Except.error _ => exact Or.inl ⟨rfl, rfl⟩
  | Except.ok ([], t) => exact Or.inl (by simp [get_box_score])
  | Except.ok (p0 :: ps, []) => exact Or.inl (by simp [get_box_score])
  | Except.ok (p0 :: ps, t0 :: ts) => exact Or.inr (by simp [get_box_score])

/-- _rate_limit_request (source lines 64-74), over an idealized wall
clock: last is the stored last_request_time, now is datetime.now() at
entry, and time.sleep advances the clock by exactly its argument.  The
first component is the wall time at return (datetime.now() after the
possible sleep) and the second is the updated last_request_time stored by
the method; the source assigns the latter from the former. -/
def rate_limit_request (request_delay last now : ℚ) : ℚ × ℚ :=
  if now - last < request_delay then
    (now + (request_delay - (now - last)), now + (request_delay - (now - last)))
  else (now, now)

/-- C4: the rate governor suspends for exactly the remaining time when the
elapsed time since the last recorded request is below the configured
minimum interval, suspends not at all otherwise, always stores the current
time as the new last-request timestamp on return, and consequently two
consecutive gated calls issued with zero wall time between them complete
at least the minimum interval apart. -/
theorem rate_limit_spacing (request_delay last now : ℚ)
    (hd : 0 < request_delay) :
    (now - last < request_delay →
      (rate_limit_request request_delay last now).1 =
        now + (request_delay - (now - last))) ∧
    (¬ now - last < request_delay →
      (rate_limit_request request_delay last now).1 = now) ∧
    ((rate_limit_request request_delay last now).2 =
      (rate_limit_request request_delay last now).1) ∧
    (request_delay ≤
      (rate_limit_request request_delay
          (rate_limit_request request_delay last now).2
          (rate_limit_request request_delay last now).1).1 -
        (rate_limit_request request_delay last now).1) := by
  refine ⟨fun h => ?_, fun h => ?_, ?_, ?_⟩
  · simp only [rate_limit_request]
    rw [if_pos h]
  · simp only [rate_limit_request]
    rw [if_neg h]
  · by_cases h : now - last < request_delay <;> simp [rate_limit_request, h]
  · have e1 : (rate_limit_request request_delay last now).2 =
        (rate_limit_request request_delay last now).1 := by
      by_cases h : now - last < request_delay <;>
        simp [rate_limit_request, h]
    rw [e1]
    generalize (rate_limit_request request_delay last now).1 = f
    have hc : f - f < request_delay := by simpa using hd
    simp only [rate_limit_request]
    rw [if_pos hc]
    show request_delay ≤ f + (request_delay - (f - f)) - f
    linarith

/-- Witness for C4 at a concrete input: with the default one-second
interval, a second gated call issued immediately after the first still
completes at least one second later. -/
theorem rate_limit_spacing_witness :
    (1:ℚ) ≤
      (rate_limit_request 1 (rate_limit_request 1 0 0).2
          (rate_limit_request 1 0 0).1).1 -
        (rate_limit_request 1 0 0).1 :=
  (rate_limit_spacing 1 0 0 (by norm_num)).2.2.2

/-- Helper for pySplit: accumulates the current token in reverse. -/
def pySplitAux : List Char → List Char → List String
  | [], cur => if cur.isEmpty then [] else [String.mk cur.reverse]
  | c :: cs, cur =>
    if c.isWhitespace then
      if cur.isEmpty then pySplitAux cs []
      else String.mk cur.reverse :: pySplitAux cs []
    else pySplitAux cs (c :: cur)

/-- Python str.split() with no argument: split on runs of whitespace,
discarding empty tokens (so the empty and whitespace-only strings yield
no tokens at all). -/
def pySplit (s : String) : List String := pySplitAux s.toList []

/-- One entry of the static player snapshot returned by the nba_api
search helpers. -/
structure PlayerEntry where
  id : Nat
  full_name : String
  deriving DecidableEq

/-- get_player_id_by_name (source lines 76-110).  The three snapshot
search helpers of the external nba_api static data
(find_players_by_full_name, find_players_by_first_name,
find_players_by_last_name) are explicit arguments.  Result: the resolved
id (None on no match or on a caught exception) paired with whether a
multiple-match warning was logged.  The none arm of the token match
models the IndexError raised by name.split()[0] on a tokenless name,
absorbed by the surrounding try/except into the None return. -/
def get_player_id_by_name
    (ff f1 fl : String → List PlayerEntry) (name : String) :
    Option Nat × Bool :=
  let m1 := ff name
  let found : Option (List PlayerEntry) :=
    if m1.isEmpty then
      match pySplit name with
      | [] => none
      | t0 :: rest =>
        if (f1 t0).isEmpty && decide (rest ≠ []) then
          some (fl ((t0 :: rest).getLastD ""))
        else some (f1 t0)
    else some m1
  match found with
  | none => (none, false)
  | some [] => (none, false)
  | some (p :: l) => (some p.id, decide (l ≠ []))

/-- C7: player resolution tries full-name match first, then (only on no
full-name match) first-name match on the first whitespace token, then
(only when those both yield no match and the name has more than one
token) last-name match on the last token; the first step that matches
determines the result, the first snapshot-order entry of that step's
matches is selected, and a warning is surfaced exactly when that step
matched more than one entry. -/
theorem player_resolution_order
    (ff f1 fl : String → List PlayerEntry) (name : String) :
    (∀ p l, ff name = p :: l →
      get_player_id_by_name ff f1 fl name = (some p.id, decide (l ≠ []))) ∧
    (ff name = [] → pySplit name = [] →
      get_player_id_by_name ff f1 fl name = (none, false)) ∧
    (∀ t0 rest, ff name = [] → pySplit name = t0 :: rest →
      (∀ p l, f1 t0 = p :: l →
        get_player_id_by_name ff f1 fl name =
          (some p.id, decide (l ≠ []))) ∧
      (f1 t0 = [] → rest = [] →
        get_player_id_by_name ff f1 fl name = (none, false)) ∧
      (f1 t0 = [] → rest ≠ [] →
        (∀ p l, fl ((t0 :: rest).getLastD "") = p :: l →
          get_player_id_by_name ff f1 fl name =
            (some p.id, decide (l ≠ []))) ∧
        (fl ((t0 :: rest).getLastD "") = [] →
          get_player_id_by_name ff f1 fl name = (none, false)))) := by
  refine ⟨?_, ?_, ?_⟩
  · intro p l h
    simp [get_player_id_by_name, h]
  · intro h hs
    simp [get_player_id_by_name, h, hs]
  · intro t0 rest h hs
    refine ⟨?_, ?_, ?_⟩
    · intro p l h1
      simp [get_player_id_by_name, h, hs, h1]
    · intro h1 hr
      subst hr
      simp [get_player_id_by_name, h, hs, h1]
    · intro h1 hr
      constructor
      · intro p l h2
        simp only [List.getLastD_eq_getLast?] at h2
        simp [get_player_id_by_name, h, hs, h1, hr, h2]
      · intro h2
        simp only [List.getLastD_eq_getLast?] at h2
        simp [get_player_id_by_name, h, hs, h1, hr, h2]

/-- Witness for C7 at a concrete input: with no full-name match for
"Luka" and exactly one snapshot entry whose first name matches, the
first-name step resolves and no multiple-match warning is raised. -/
theorem player_resolution_order_witness :
    get_player_id_by_name (fun _ => [])
      (fun s => if s = "Luka" then [⟨77, "Luka Doncic"⟩] else [])
      (fun _ => []) "Luka" = (some 77, false) :=
  ((player_resolution_order (fun _ => [])
      (fun s => if s = "Luka" then [⟨77, "Luka Doncic"⟩] else [])
      (fun _ => []) "Luka").2.2 "Luka" [] rfl rfl).1
    ⟨77, "Luka Doncic"⟩ [] (by decide)

/-- C8: when the whole fallback chain yields zero matches — in particular
for the empty string and whitespace-only strings, whose token list is
empty — player resolution returns None (with no warning) instead of
raising; the tokenless IndexError path is absorbed by the handler. -/
theorem player_resolution_not_found
    (ff f1 fl : String → List PlayerEntry) (name : String)
    (h : ff name = [])
    (h1 : ∀ t0 rest, pySplit name = t0 :: rest → f1 t0 = [])
    (h2 : ∀ t0 rest, pySplit name = t0 :: rest → rest ≠ [] →
      fl ((t0 :: rest).getLastD "") = []) :
    get_player_id_by_name ff f1 fl name = (none, false) := by
  match hs : pySplit name with
  | [] => simp [get_player_id_by_name, h, hs]
  | t0 :: rest =>
    match hr : rest with
    | [] => simp [get_player_id_by_name, h, hs, h1 t0 [] hs]
    | r0 :: rs =>
      have h3 := h2 t0 (r0 :: rs) hs (by simp)
      simp only [List.getLastD_eq_getLast?, List.getLast?_cons_cons] at h3
      simp [get_player_id_by_name, h, hs, h1 t0 (r0 :: rs) hs, h3]

/-- Witness for C8 at a concrete input: a whitespace-only name with an
empty snapshot resolves to None without raising. -/
theorem player_resolution_not_found_witness :
    get_player_id_by_name (fun _ => []) (fun _ => []) (fun _ => [])
      "   " = (none, false) :=
  player_resolution_not_found (fun _ => []) (fun _ => []) (fun _ => [])
    "   " rfl (fun _ _ _ => rfl) (fun _ _ _ _ => rfl)

/-- The pandas row selection df.loc[df[TEAM_ID] == tid] used by
spot_check_game on both stat tables. -/
def teamSel (rows : List Row) (tid : PVal) : List Row :=
  rows.filter (fun r => decide (rget r "TEAM_ID" = some tid))

/-- PTS cell of a row inside a selected PTS column (a missing cell reads
as NaN, which the pandas sum then skips). -/
def ptsOf (r : Row) : PVal :=
  match rget r "PTS" with
  | some v => v
  | none => PVal.nan

/-- Rational PTS value of a row, for stating the spot check over ℚ. -/
def qPtsOf (r : Row) : ℚ :=
  match rget r "PTS" with
  | some (PVal.num q) => q
  | _ => 0

/-- player_stats.loc[df[TEAM_ID] == tid, PTS].sum() (source lines
624-625): pandas sum of the selected PTS cells. -/
def sumPtsFor (rows : List Row) (tid : PVal) : PVal :=
  pandasSum ((teamSel rows tid).map ptsOf)

/-- Rational counterpart of sumPtsFor for numeric tables. -/
def qsumPts (rows : List Row) (tid : PVal) : ℚ :=
  ((teamSel rows tid).map qPtsOf).sum

/-- team_stats.loc[df[TEAM_ID] == tid, PTS].values[0] (source lines
621-622): PTS of the first selected team row; an empty selection raises
IndexError. -/
def firstMatchPts (rows : List Row) (tid : PVal) : Except String PVal :=
  match (teamSel rows tid).head? with
  | some r => getE r "PTS"
  | none => Except.error "IndexError"

/-- Body of spot_check_game once both tables are non-empty (source lines
613-638): read the two team ids from team-stats rows 0 and 1 (IndexError
when there is no row 1, KeyError when a column is missing — both are
absorbed by the caller), look up each team's reported points, sum each
team's player points, and pass exactly when both absolute differences
are strictly below 0.1. -/
def spot_check_core (p t : List Row) : Except String Bool :=
  match t with
  | t0 :: t1 :: _ =>
    match getE t0 "TEAM_ID", getE t1 "TEAM_ID" with
    | Except.ok homeId, Except.ok awayId =>
      match firstMatchPts t homeId, firstMatchPts t awayId with
      | Except.ok homePts, Except.ok awayPts =>
        Except.ok
          (pvLt (pvAbs (pvSub homePts (sumPtsFor p homeId)))
              (PVal.num (1/10)) &&
            pvLt (pvAbs (pvSub awayPts (sumPtsFor p awayId)))
              (PVal.num (1/10)))
      | Except.error e, _ => Except.error e
      | _, Except.error e => Except.error e
    | Except.error e, _ => Except.error e
    | _, Except.error e => Except.error e
  | _ => Except.error "IndexError"

/-- spot_check_game (source lines 597-645): fetch the box score, run the
consistency check when both tables are non-empty, and convert any raised
exception (and the missing-data case) into a False result. -/
def spot_check_game (ext : Except String (List Row × List Row)) : Bool :=
  let bs := (get_box_score ext).1
  if !bs.1.isEmpty && !bs.2.isEmpty then
    match spot_check_core bs.1 bs.2 with
    | Except.ok b => b
    | Except.error _ => false
  else false

/-- The NaN-skipping fold over an all-numeric column is plain rational
summation. -/
theorem foldl_sumStep_num (l : List ℚ) :
    ∀ a : ℚ, List.foldl sumStep (PVal.num a) (l.map PVal.num) =
      PVal.num (a + l.sum) := by
  induction l with
  | nil => intro a; simp
  | cons x xs ih =>
    intro a
    simp only [List.map_cons, List.foldl_cons]
    rw [show sumStep (PVal.num a) (PVal.num x) = PVal.num (a + x) from rfl,
      ih]
    congr 1
    rw [List.sum_cons]
    ring

/-- pandasSum over an all-numeric column is plain rational summation. -/
theorem pandasSum_map_num (l : List ℚ) :
    pandasSum (l.map PVal.num) = PVal.num l.sum := by
  rw [pandasSum, foldl_sumStep_num]
  rw [zero_add]

/-- On a table whose PTS column is entirely numeric, the pandas per-team
sum agrees with the rational per-team sum. -/
theorem sumPtsFor_eq (rows : List Row) (tid : PVal)
    (hall : ∀ r ∈ rows, ∃ q : ℚ, rget r "PTS" = some (PVal.num q)) :
    sumPtsFor rows tid = PVal.num (qsumPts rows tid) := by
  have hmap : (teamSel rows tid).map ptsOf =
      ((teamSel rows tid).map qPtsOf).map PVal.num := by
    rw [List.map_map]
    apply List.map_congr_left
    intro r hr
    obtain ⟨q, hq⟩ := hall r (List.mem_of_mem_filter hr)
    simp [Function.comp, ptsOf, qPtsOf, hq]
  rw [sumPtsFor, hmap, pandasSum_map_num, qsumPts]

/-- Two-team numeric-table characterization of the spot check, shared by
the conjuncts of the spot-check theorem below. -/
theorem spot_check_two_team_iff (p : List Row) (t0 t1 : Row)
    (i0 i1 q0 q1 : ℚ)
    (hp : p ≠ [])
    (ht0 : rget t0 "TEAM_ID" = some (PVal.num i0))
    (ht1 : rget t1 "TEAM_ID" = some (PVal.num i1))
    (hne : i0 ≠ i1)
    (hq0 : rget t0 "PTS" = some (PVal.num q0))
    (hq1 : rget t1 "PTS" = some (PVal.num q1))
    (hall : ∀ r ∈ p, ∃ q : ℚ, rget r "PTS" = some (PVal.num q)) :
    spot_check_game (Except.ok (p, [t0, t1])) = true ↔
      (abs (q0 - qsumPts p (PVal.num i0)) < 1/10 ∧
        abs (q1 - qsumPts p (PVal.num i1)) < 1/10) := by
  obtain ⟨p0, ps, rfl⟩ := List.exists_cons_of_ne_nil hp
  have hs0 := sumPtsFor_eq (p0 :: ps) (PVal.num i0) hall
  have hs1 := sumPtsFor_eq (p0 :: ps) (PVal.num i1) hall
  simp [spot_check_game, get_box_score, spot_check_core, firstMatchPts,
    teamSel, getE, ht0, ht1, hne, hq0, hq1, hs0, hs1, pvSub, pvAbs,
    pvLt, List.filter]

/-- C5: on a fetched box score with exactly two (numeric, distinct-id)
team rows and a non-empty numeric player table, the spot check passes
exactly when both teams' absolute differences between reported and
player-summed points are strictly below 0.1; a table with fewer than two
team rows, or an empty player table, fails without raising; and a
difference of exactly 0.1 fails, since the comparison is strict. -/
theorem spot_check_characterization :
    (∀ (p : List Row) (t0 t1 : Row) (i0 i1 q0 q1 : ℚ),
      p ≠ [] →
      rget t0 "TEAM_ID" = some (PVal.num i0) →
      rget t1 "TEAM_ID" = some (PVal.num i1) →
      i0 ≠ i1 →
      rget t0 "PTS" = some (PVal.num q0) →
      rget t1 "PTS" = some (PVal.num q1) →
      (∀ r ∈ p, ∃ q : ℚ, rget r "PTS" = some (PVal.num q)) →
      (spot_check_game (Except.ok (p, [t0, t1])) = true ↔
        (abs (q0 - qsumPts p (PVal.num i0)) < 1/10 ∧
          abs (q1 - qsumPts p (PVal.num i1)) < 1/10))) ∧
    (∀ (p t : List Row), t.length < 2 →
      spot_check_game (Except.ok (p, t)) = false) ∧
    (∀ t : List Row,
      spot_check_game (Except.ok (([] : List Row), t)) = false) ∧
    spot_check_game (Except.ok
      ([[("TEAM_ID", PVal.num 1), ("PTS", PVal.num (1001/10))],
        [("TEAM_ID", PVal.num 2), ("PTS", PVal.num 98)]],
        [[("TEAM_ID", PVal.num 1), ("PTS", PVal.num 100)],
          [("TEAM_ID", PVal.num 2), ("PTS", PVal.num 98)]])) = false := by
  refine ⟨fun p t0 t1 i0 i1 q0 q1 hp ht0 ht1 hne hq0 hq1 hall =>
    spot_check_two_team_iff p t0 t1 i0 i1 q0 q1 hp ht0 ht1 hne hq0 hq1 hall,
    ?_, ?_, ?_⟩
  · intro p t hlen
    match t with
    | [] => simp [spot_check_game, get_box_score]
    | [u] =>
      match p with
      | [] => simp [spot_check_game, get_box_score]
      | p0 :: ps =>
        simp [spot_check_game, get_box_score, spot_check_core]
    | u :: v :: w =>
      exfalso
      simp only [List.length_cons] at hlen
      omega
  · intro t
    simp [spot_check_game, get_box_score]
  · rw [Bool.eq_false_iff]
    intro htrue
    have hiff := spot_check_two_team_iff
      [[("TEAM_ID", PVal.num 1), ("PTS", PVal.num (1001/10))],
        [("TEAM_ID", PVal.num 2), ("PTS", PVal.num 98)]]
      [("TEAM_ID", PVal.num 1), ("PTS", PVal.num 100)]
      [("TEAM_ID", PVal.num 2), ("PTS", PVal.num 98)]
      1 2 100 98 (by simp) rfl rfl (by norm_num) rfl rfl
      (by
        intro r hr
        simp only [List.mem_cons, List.not_mem_nil, or_false] at hr
        rcases hr with rfl | rfl
        · exact ⟨1001/10, rfl⟩
        · exact ⟨98, rfl⟩)
    have hc := hiff.mp htrue
    have e0 : qsumPts
        [[("TEAM_ID", PVal.num 1), ("PTS", PVal.num (1001/10))],
          [("TEAM_ID", PVal.num 2), ("PTS", PVal.num 98)]]
        (PVal.num 1) = 1001/10 := by
      simp [qsumPts, teamSel, qPtsOf, rget, List.filter]
    rw [e0] at hc
    have hcontra : ¬ (|(100:ℚ) - 1001/10| < 1/10) := by
      rw [abs_sub_lt_iff]
      norm_num
    exact hcontra hc.1

/-- Witness for C5 at a concrete passing box score: reported 100 and 98
match the player sums 100 and 98 exactly, so the check passes. -/
theorem spot_check_characterization_witness :
    spot_check_game (Except.ok
      ([[("TEAM_ID", PVal.num 1), ("PTS", PVal.num 100)],
        [("TEAM_ID", PVal.num 2), ("PTS", PVal.num 98)]],
        [[("TEAM_ID", PVal.num 1), ("PTS", PVal.num 100)],
          [("TEAM_ID", PVal.num 2), ("PTS", PVal.num 98)]])) = true :=
  (spot_check_characterization.1
      [[("TEAM_ID", PVal.num 1), ("PTS", PVal.num 100)],
        [("TEAM_ID", PVal.num 2), ("PTS", PVal.num 98)]]
      [("TEAM_ID", PVal.num 1), ("PTS", PVal.num 100)]
      [("TEAM_ID", PVal.num 2), ("PTS", PVal.num 98)]
      1 2 100 98 (by simp) rfl rfl (by norm_num) rfl rfl
      (by
        intro r hr
        simp only [List.mem_cons, List.not_mem_nil, or_false] at hr
        rcases hr with rfl | rfl
        · exact ⟨100, rfl⟩
        · exact ⟨98, rfl⟩)).mpr
    (by constructor <;> simp [qsumPts, teamSel, qPtsOf, rget, List.filter])

/-- Assigning a column then reading it back yields the assigned value. -/
theorem rget_rset_self (r : Row) (c : String) (v : PVal) :
    rget (rset r c v) c = some v := by
  induction r with
  | nil => simp [rset, rget]
  | cons kv rest ih =>
    obtain ⟨k, w⟩ := kv
    by_cases h : k = c
    · simp [rset, rget, h]
    · simp [rset, rget, h, ih]

/-- Assigning one column leaves every other column's value unchanged. -/
theorem rget_rset_ne (r : Row) (c : String) (v : PVal) (c2 : String)
    (h : c2 ≠ c) : rget (rset r c v) c2 = rget r c2 := by
  have h2 : c ≠ c2 := Ne.symm h
  induction r with
  | nil => simp [rset, rget, h2]
  | cons kv rest ih =>
    obtain ⟨k, w⟩ := kv
    by_cases hk : k = c
    · subst hk
      simp [rset, rget, h2]
    · simp only [rset, rget, if_neg hk]
      split_ifs with hkc
      · rfl
      · exact ih

/-- Assigning a column absent from a row appends exactly that one column
name at the end of the row's column list. -/
theorem rkeys_rset_missing (r : Row) (c : String) (v : PVal)
    (h : rget r c = none) : rkeys (rset r c v) = rkeys r ++ [c] := by
  induction r with
  | nil => simp [rset, rkeys]
  | cons kv rest ih =>
    obtain ⟨k, w⟩ := kv
    by_cases hk : k = c
    · simp [rget, hk] at h
    · simp only [rget, hk, if_false] at h
      simp [rset, rkeys, hk] at ih ⊢
      exact ih h

/-- C10: on a non-empty team game-log response, the fetch returns exactly
the raw rows with the single TEAM_ID column assigned to the requested
team id: every other column keeps its raw value, TEAM_ID reads back as
the requested id, and when TEAM_ID was absent from a raw row the row's
column list is extended by exactly that one column — so no derived
column (DOUBLE_DOUBLE, TRIPLE_DOUBLE, or a shooting percentage) is added
and no raw field is modified. -/
theorem team_log_frame (team_id : ℚ) (df : List Row) (h : df ≠ []) :
    (get_team_game_log team_id (Except.ok df)).1 =
      df.map (fun r => rset r "TEAM_ID" (PVal.num team_id)) ∧
    (∀ r : Row, ∀ c : String, c ≠ "TEAM_ID" →
      rget (rset r "TEAM_ID" (PVal.num team_id)) c = rget r c) ∧
    (∀ r : Row,
      rget (rset r "TEAM_ID" (PVal.num team_id)) "TEAM_ID" =
        some (PVal.num team_id)) ∧
    (∀ r : Row, rget r "TEAM_ID" = none →
      rkeys (rset r "TEAM_ID" (PVal.num team_id)) =
        rkeys r ++ ["TEAM_ID"]) := by
  obtain ⟨r0, rs, rfl⟩ := List.exists_cons_of_ne_nil h
  refine ⟨by simp [get_team_game_log], ?_, ?_, ?_⟩
  · intro r c hc
    exact rget_rset_ne r "TEAM_ID" (PVal.num team_id) c hc
  · intro r
    exact rget_rset_self r "TEAM_ID" (PVal.num team_id)
  · intro r hr
    exact rkeys_rset_missing r "TEAM_ID" (PVal.num team_id) hr

/-- Witness for C10 at a concrete input: a one-row response keeps its raw
column and gains only the TEAM_ID column. -/
theorem team_log_frame_witness :
    (get_team_game_log 5 (Except.ok [[("PTS", PVal.num 3)]])).1 =
      [[("PTS", PVal.num 3), ("TEAM_ID", PVal.num 5)]] :=
  ((team_log_frame 5 [[("PTS", PVal.num 3)]] (by simp)).1).trans rfl
